import Mathlib

/-!
Verification development for the authentication token and session-management
subsystem of the clean-architecture-saas repository (Go).

The embedding follows the source files:
  internal/application/services/auth_service_tokens.go   (GetTokenHash, GenerateTokens, ValidateToken)
  internal/application/services  (AuthService.Login/RefreshToken/Logout/StartSession/... )
  internal/infrastructure/repositories/token_composite_repository.go
  internal/infrastructure/repositories/token_db_repository.go
  internal/infrastructure/repositories/token_redis_repository.go
  migrations: refresh_tokens / blacklisted_tokens tables (token_hash VARCHAR(64) UNIQUE)

External collaborators are modelled, not reimplemented:
  - crypto/sha256 and golang-jwt HMAC signing are modelled symbolically by the
    inductive type `Str`: a signed JWT is represented by its payload
    (deterministic signing with one secret is injective on payloads), and the
    hex SHA-256 digest by the constructor `Str.sha256hex` (collision-free,
    never equal to its preimage).  Strings not produced by the codec are
    `Str.lit`; by unforgeability they never verify.
  - the relational store is a pair of row lists with SQL predicates translated
    literally (NOW() comparisons become an explicit `now` argument).
  - Redis is a pair of association lists carrying absolute expiry instants; a
    key whose expiry is not in the future is invisible to reads, and SET with a
    ttl computed from `now` stores expiry `now + ttl`.

Time is `Nat` (seconds); `time.Hour` is 3600.
-/

/-- `jwt.RegisteredClaims` as used by the service: Subject (the user id),
ExpiresAt and IssuedAt. -/
structure RegisteredClaims where
  subject : Nat
  expiresAt : Nat
  issuedAt : Nat
deriving DecidableEq

/-- `auth.Claims` (internal/core/domain/auth): JWT claims with embedded
session metadata. -/
structure Claims where
  userID : Nat
  email : String
  role : String
  tenantID : Nat
  ipAddress : String
  userAgent : String
  lastActivity : Nat
  createdAt : Nat
  registered : RegisteredClaims
deriving DecidableEq

/-- Symbolic model of the Go strings that flow through the token subsystem.
`accessTok c` is the HS256-signed access JWT with payload `c`;
`refreshTok rc` is the HS256-signed refresh JWT with payload `rc`;
`sha256hex s` is the lowercase hex SHA-256 digest of the string `s`;
`lit s` is any other string (not produced by the codec with the server
secret). Injectivity of the constructors models deterministic signing and
collision-free hashing. -/
inductive Str : Type
  | lit (s : String)
  | accessTok (c : Claims)
  | refreshTok (rc : RegisteredClaims)
  | sha256hex (s : Str)
deriving DecidableEq

/-- `AuthService.GetTokenHash` (auth_service_tokens.go): hex-encoded SHA-256
digest of the raw token string. -/
def AuthService.GetTokenHash (token : Str) : Str :=
  Str.sha256hex token

/-- A row of the `refresh_tokens` table (column `token_hash` receives whatever
string the repository layer passes in). -/
structure RefreshRow where
  userID : Nat
  tokenHash : Str
  expiresAt : Nat
  createdAt : Nat
deriving DecidableEq

/-- A row of the `blacklisted_tokens` table. -/
structure BlacklistRow where
  userID : Nat
  tokenHash : Str
  expiresAt : Nat
  createdAt : Nat
  reason : String
deriving DecidableEq

/-- The durable (relational) token store: the two tables owned by
`TokenDBRepository`. -/
structure DBState where
  refreshTokens : List RefreshRow
  blacklistedTokens : List BlacklistRow
deriving DecidableEq

/-- `TokenDBRepository.storeRefreshToken`: plain INSERT into `refresh_tokens`;
the schema's UNIQUE constraint on `token_hash` makes a duplicate insert fail. -/
def TokenDBRepository.storeRefreshToken (db : DBState) (userID : Nat)
    (tokenHash : Str) (expiresAt now : Nat) : Except String DBState :=
  if db.refreshTokens.any (fun r => decide (r.tokenHash = tokenHash)) then
    .error "failed to store refresh token"
  else
    .ok { db with refreshTokens :=
            db.refreshTokens ++ [⟨userID, tokenHash, expiresAt, now⟩] }

/-- `TokenDBRepository.getRefreshToken`: SELECT ... WHERE token_hash = $1 AND
expires_at > NOW(). -/
def TokenDBRepository.getRefreshToken (db : DBState) (tokenHash : Str)
    (now : Nat) : Option RefreshRow :=
  db.refreshTokens.find? (fun r => decide (r.tokenHash = tokenHash ∧ now < r.expiresAt))

/-- `TokenDBRepository.deleteRefreshToken`: DELETE FROM refresh_tokens WHERE
token_hash = $1. -/
def TokenDBRepository.deleteRefreshToken (db : DBState) (tokenHash : Str) : DBState :=
  { db with refreshTokens :=
      db.refreshTokens.filter (fun r => !(decide (r.tokenHash = tokenHash))) }

/-- `TokenDBRepository.deleteUserTokens`: deletes all refresh and blacklist
rows of one user. -/
def TokenDBRepository.deleteUserTokens (db : DBState) (userID : Nat) : DBState :=
  { refreshTokens := db.refreshTokens.filter (fun r => !(decide (r.userID = userID))),
    blacklistedTokens := db.blacklistedTokens.filter (fun r => !(decide (r.userID = userID))) }

/-- `TokenDBRepository.isTokenBlacklisted`: SELECT COUNT(*) ... WHERE
token_hash = $1 AND expires_at > NOW(); returns count > 0. -/
def TokenDBRepository.isTokenBlacklisted (db : DBState) (tokenHash : Str)
    (now : Nat) : Bool :=
  db.blacklistedTokens.any (fun r => decide (r.tokenHash = tokenHash ∧ now < r.expiresAt))

/-- `TokenDBRepository.blacklistToken`: INSERT ... ON CONFLICT (token_hash) DO
NOTHING, with reason "logout"; the conflict target is the UNIQUE index on
`token_hash` alone, so any existing row with the same hash makes the insert a
no-op. -/
def TokenDBRepository.blacklistToken (db : DBState) (userID : Nat)
    (tokenHash : Str) (expiresAt now : Nat) : DBState :=
  if db.blacklistedTokens.any (fun r => decide (r.tokenHash = tokenHash)) then db
  else
    { db with blacklistedTokens :=
        db.blacklistedTokens ++ [⟨userID, tokenHash, expiresAt, now, "logout"⟩] }

/-- `TokenDBRepository.deleteExpiredRefreshTokens`: DELETE WHERE
expires_at <= NOW(). -/
def TokenDBRepository.deleteExpiredRefreshTokens (db : DBState) (now : Nat) : DBState :=
  { db with refreshTokens := db.refreshTokens.filter (fun r => decide (now < r.expiresAt)) }

/-- `TokenDBRepository.deleteExpiredBlacklistedTokens`: DELETE WHERE
expires_at <= NOW(). -/
def TokenDBRepository.deleteExpiredBlacklistedTokens (db : DBState) (now : Nat) : DBState :=
  { db with blacklistedTokens := db.blacklistedTokens.filter (fun r => decide (now < r.expiresAt)) }

/-- The ephemeral session store (Redis keyspace owned by
`TokenRedisRepository`): `saas_tokens:token:<hash>` entries carrying the
claims JSON and an absolute expiry, and `saas_tokens:user:<id>:tokens` sets
carrying the member hashes and the set key's absolute expiry. -/
structure RedisState where
  tokenKeys : List (Str × Claims × Nat)
  userTokenSets : List (Nat × List Str × Nat)
deriving DecidableEq

/-- Lookup of a `token:` key (ignoring expiry; the raw keyspace). -/
def kfind (l : List (Str × Claims × Nat)) (k : Str) : Option (Claims × Nat) :=
  (l.find? (fun e => decide (e.1 = k))).map (fun e => e.2)

/-- Redis SET on a `token:` key: overwrite the value and expiry. -/
def kset (l : List (Str × Claims × Nat)) (k : Str) (v : Claims × Nat) :
    List (Str × Claims × Nat) :=
  l.filter (fun e => !(decide (e.1 = k))) ++ [(k, v)]

/-- Redis DEL on a `token:` key. -/
def kdel (l : List (Str × Claims × Nat)) (k : Str) : List (Str × Claims × Nat) :=
  l.filter (fun e => !(decide (e.1 = k)))

/-- Lookup of a `user:<id>:tokens` set key (ignoring expiry). -/
def sfind (l : List (Nat × List Str × Nat)) (uid : Nat) : Option (List Str × Nat) :=
  (l.find? (fun e => decide (e.1 = uid))).map (fun e => e.2)

/-- Overwrite a `user:<id>:tokens` set entry. -/
def sset (l : List (Nat × List Str × Nat)) (uid : Nat) (v : List Str × Nat) :
    List (Nat × List Str × Nat) :=
  l.filter (fun e => !(decide (e.1 = uid))) ++ [(uid, v)]

/-- Redis DEL of a whole `user:<id>:tokens` set key. -/
def sdel (l : List (Nat × List Str × Nat)) (uid : Nat) : List (Nat × List Str × Nat) :=
  l.filter (fun e => !(decide (e.1 = uid)))

/-- Redis SREM of one member from a user's set; a key that is absent or past
its expiry holds no members, so the call is a no-op there.  The set key's own
expiry is untouched by SREM. -/
def sremMember (l : List (Nat × List Str × Nat)) (uid : Nat) (h : Str)
    (now : Nat) : List (Nat × List Str × Nat) :=
  match sfind l uid with
  | none => l
  | some (ms, se) =>
    if now < se then sset l uid (ms.filter (fun x => !(decide (x = h))), se) else l

/-- `TokenRedisRepository.getTokenClaims`: GET of the `token:` key; a missing
or expired key yields the "token not found or expired" error, modelled as
`none`. -/
def TokenRedisRepository.getTokenClaims (r : RedisState) (tokenHash : Str)
    (now : Nat) : Option Claims :=
  match kfind r.tokenKeys tokenHash with
  | some (c, e) => if now < e then some c else none
  | none => none

/-- `TokenRedisRepository.storeTokenClaims`: computes ttl = expiresAt − now and
fails if it is not positive; SETs the claims under the `token:` key with that
ttl; SADDs the hash to the user's set and EXPIREs the set to ttl + one hour. -/
def TokenRedisRepository.storeTokenClaims (r : RedisState) (tokenHash : Str)
    (claims : Claims) (expiresAt now : Nat) : Except String RedisState :=
  if expiresAt ≤ now then .error "token already expired"
  else
    let ttl := expiresAt - now
    let tk := kset r.tokenKeys tokenHash (claims, now + ttl)
    let members :=
      match sfind r.userTokenSets claims.userID with
      | some (ms, se) =>
        if now < se then (if tokenHash ∈ ms then ms else ms ++ [tokenHash]) else [tokenHash]
      | none => [tokenHash]
    .ok { tokenKeys := tk,
          userTokenSets := sset r.userTokenSets claims.userID (members, now + ttl + 3600) }

/-- The field updates `updateTokenActivity` performs on the claims it read:
LastActivity is set to now, IP and user-agent are overwritten only when the
incoming value is non-empty; every other field is kept. -/
def TokenRedisRepository.touchClaims (c : Claims) (ipAddress userAgent : String)
    (now : Nat) : Claims :=
  { c with
    lastActivity := now,
    ipAddress := if ipAddress ≠ "" then ipAddress else c.ipAddress,
    userAgent := if userAgent ≠ "" then userAgent else c.userAgent }

/-- `TokenRedisRepository.updateTokenActivity`: reads the live claims, applies
`touchClaims`, reads the key's remaining TTL and SETs the updated claims back
with that same remaining TTL. -/
def TokenRedisRepository.updateTokenActivity (r : RedisState) (tokenHash : Str)
    (ipAddress userAgent : String) (now : Nat) : RedisState :=
  match kfind r.tokenKeys tokenHash with
  | none => r
  | some (c, e) =>
    if now < e then
      RedisState.mk
        (kset r.tokenKeys tokenHash
          (TokenRedisRepository.touchClaims c ipAddress userAgent now, now + (e - now)))
        r.userTokenSets
    else r

/-- `TokenRedisRepository.deleteTokenClaims`: reads the live claims (a
missing/expired key is success), DELs the `token:` key and SREMs the hash from
the owning user's set. -/
def TokenRedisRepository.deleteTokenClaims (r : RedisState) (tokenHash : Str)
    (now : Nat) : RedisState :=
  match kfind r.tokenKeys tokenHash with
  | none => r
  | some (c, e) =>
    if now < e then
      { tokenKeys := kdel r.tokenKeys tokenHash,
        userTokenSets := sremMember r.userTokenSets c.userID tokenHash now }
    else r

/-- `TokenRedisRepository.getUserTokenClaims`: SMEMBERS of the user's set,
then a GET per member; members whose `token:` key is gone are SREM'd from the
set and skipped (self-healing read). -/
def TokenRedisRepository.getUserTokenClaims (r : RedisState) (userID : Nat)
    (now : Nat) : List Claims × RedisState :=
  match sfind r.userTokenSets userID with
  | none => ([], r)
  | some (ms, se) =>
    if now < se then
      ms.foldl (fun acc h =>
        match TokenRedisRepository.getTokenClaims acc.2 h now with
        | none => (acc.1, { acc.2 with userTokenSets := sremMember acc.2.userTokenSets userID h now })
        | some c => (acc.1 ++ [c], acc.2)) ([], r)
    else ([], r)

/-- One iteration of the member loop of
`TokenRedisRepository.deleteUserTokenClaims`: a member equal to the hash to
keep is skipped; any other member has its `token:` key DEL'd, is SREM'd from
the user's set, and is counted. -/
def TokenRedisRepository.dutcStep (userID : Nat) (keepTokenHash : Option Str)
    (now : Nat) (acc : Nat × RedisState) (h : Str) : Nat × RedisState :=
  if keepTokenHash = some h then acc
  else
    let r1 := { acc.2 with tokenKeys := kdel acc.2.tokenKeys h }
    let r2 := { r1 with userTokenSets := sremMember r1.userTokenSets userID h now }
    (acc.1 + 1, r2)

/-- `TokenRedisRepository.deleteUserTokenClaims`: SMEMBERS of the user's set;
every member other than `keepTokenHash` has its `token:` key DEL'd and is
SREM'd from the set (counted); finally, when a hash to keep was given, the
whole `user:<id>:tokens` set key is DEL'd. -/
def TokenRedisRepository.deleteUserTokenClaims (r : RedisState) (userID : Nat)
    (keepTokenHash : Option Str) (now : Nat) : Nat × RedisState :=
  let ms :=
    match sfind r.userTokenSets userID with
    | some (ms, se) => if now < se then ms else []
    | none => []
  let res := ms.foldl (TokenRedisRepository.dutcStep userID keepTokenHash now) (0, r)
  if keepTokenHash.isSome then
    (res.1, { res.2 with userTokenSets := sdel res.2.userTokenSets userID })
  else res

/-- The two stores behind the Composite Token Repository
(`TokenRepository` in token_composite_repository.go). -/
structure SysState where
  db : DBState
  redis : RedisState
deriving DecidableEq

/-- Composite `TokenRepository.StoreRefreshToken`: delegates to the database
repository, passing the `token` argument through unchanged. -/
def TokenRepository.StoreRefreshToken (st : SysState) (userID : Nat)
    (token : Str) (expiresAt now : Nat) : Except String SysState :=
  (TokenDBRepository.storeRefreshToken st.db userID token expiresAt now).map
    (fun d => { st with db := d })

/-- Composite `TokenRepository.GetRefreshToken`: delegates unchanged. -/
def TokenRepository.GetRefreshToken (st : SysState) (token : Str) (now : Nat) :
    Option RefreshRow :=
  TokenDBRepository.getRefreshToken st.db token now

/-- Composite `TokenRepository.DeleteRefreshToken`: delegates unchanged. -/
def TokenRepository.DeleteRefreshToken (st : SysState) (token : Str) : SysState :=
  { st with db := TokenDBRepository.deleteRefreshToken st.db token }

/-- Composite `TokenRepository.DeleteUserTokens`: delegates unchanged. -/
def TokenRepository.DeleteUserTokens (st : SysState) (userID : Nat) : SysState :=
  { st with db := TokenDBRepository.deleteUserTokens st.db userID }

/-- Composite `TokenRepository.IsTokenBlacklisted`: delegates unchanged. -/
def TokenRepository.IsTokenBlacklisted (st : SysState) (token : Str) (now : Nat) : Bool :=
  TokenDBRepository.isTokenBlacklisted st.db token now

/-- Composite `TokenRepository.BlacklistToken`: delegates unchanged. -/
def TokenRepository.BlacklistToken (st : SysState) (userID : Nat) (token : Str)
    (expiresAt now : Nat) : SysState :=
  { st with db := TokenDBRepository.blacklistToken st.db userID token expiresAt now }

/-- Composite `TokenRepository.StoreTokenClaims`: delegates to Redis. -/
def TokenRepository.StoreTokenClaims (st : SysState) (tokenHash : Str)
    (claims : Claims) (expiresAt now : Nat) : Except String SysState :=
  (TokenRedisRepository.storeTokenClaims st.redis tokenHash claims expiresAt now).map
    (fun r => { st with redis := r })

/-- Composite `TokenRepository.GetTokenClaims`: delegates to Redis. -/
def TokenRepository.GetTokenClaims (st : SysState) (tokenHash : Str) (now : Nat) :
    Option Claims :=
  TokenRedisRepository.getTokenClaims st.redis tokenHash now

/-- Composite `TokenRepository.UpdateTokenActivity`: delegates to Redis. -/
def TokenRepository.UpdateTokenActivity (st : SysState) (tokenHash : Str)
    (ipAddress userAgent : String) (now : Nat) : SysState :=
  { st with redis := TokenRedisRepository.updateTokenActivity st.redis tokenHash ipAddress userAgent now }

/-- Composite `TokenRepository.DeleteTokenClaims`: delegates to Redis. -/
def TokenRepository.DeleteTokenClaims (st : SysState) (tokenHash : Str) (now : Nat) : SysState :=
  { st with redis := TokenRedisRepository.deleteTokenClaims st.redis tokenHash now }

/-- Composite `TokenRepository.GetUserTokenClaims`: delegates to Redis. -/
def TokenRepository.GetUserTokenClaims (st : SysState) (userID : Nat) (now : Nat) :
    List Claims × SysState :=
  let (cs, r) := TokenRedisRepository.getUserTokenClaims st.redis userID now
  (cs, { st with redis := r })

/-- Composite `TokenRepository.DeleteUserTokenClaims`: delegates to Redis. -/
def TokenRepository.DeleteUserTokenClaims (st : SysState) (userID : Nat)
    (keepTokenHash : Option Str) (now : Nat) : Nat × SysState :=
  let (n, r) := TokenRedisRepository.deleteUserTokenClaims st.redis userID keepTokenHash now
  (n, { st with redis := r })

/-- `config.JWTConfig` fields consumed by the service. -/
structure JWTConfig where
  accessTokenTTL : Nat
  refreshTokenTTL : Nat
  sessionTimeout : Nat
deriving DecidableEq

/-- The fields of `user.User` that token issuance reads. -/
structure User where
  id : Nat
  email : String
  role : String
  tenantID : Nat
deriving DecidableEq

/-- `auth.AuthTokens`. -/
structure AuthTokens where
  accessToken : Str
  refreshToken : Str
  expiresIn : Nat
deriving DecidableEq

/-- The error kinds the service produces (taxonomy of §7 as realized by the
code's error returns). -/
inductive AuthErr : Type
  | invalidToken
  | blacklisted
  | sessionNotFound
  | sessionMismatch
  | sessionTimedOut
  | invalidRefreshToken
  | refreshTokenExpired
  | userNotFound
  | storeFailure
deriving DecidableEq

/-- `jwt.ParseWithClaims(tokenString, &auth.Claims{}, ...)` with the HMAC
method check: a signed access token yields its claims; a signed refresh token
also parses (it is HS256 under the same secret), JSON-decoding into a Claims
value whose non-registered fields are zero values; any other string fails
signature verification or is malformed. -/
def parseAccessClaims : Str → Option Claims
  | .accessTok c => some c
  | .refreshTok rc =>
    some { userID := 0, email := "", role := "", tenantID := 0, ipAddress := "",
           userAgent := "", lastActivity := 0, createdAt := 0, registered := rc }
  | _ => none

/-- `AuthService.ValidateToken`: parse + verify (signature, HMAC family,
`exp` in the future), then reject blacklisted tokens — the raw token string is
what is handed to `IsTokenBlacklisted`. -/
def AuthService.ValidateToken (st : SysState) (tokenString : Str) (now : Nat) :
    Except AuthErr Claims :=
  match parseAccessClaims tokenString with
  | none => .error .invalidToken
  | some claims =>
    if claims.registered.expiresAt ≤ now then .error .invalidToken
    else if TokenRepository.IsTokenBlacklisted st tokenString now then .error .blacklisted
    else .ok claims

/-- The claim set built at the top of `AuthService.GenerateTokens`. -/
def AuthService.mkClaims (cfg : JWTConfig) (u : User) (now : Nat) : Claims :=
  { userID := u.id, email := u.email, role := u.role, tenantID := u.tenantID,
    ipAddress := "", userAgent := "", lastActivity := now, createdAt := now,
    registered := { subject := u.id, expiresAt := now + cfg.accessTokenTTL, issuedAt := now } }

/-- `AuthService.GenerateTokens`, with the availability of the two external
store calls made explicit: `fStoreClaims` (the Redis StoreTokenClaims call)
and `fStoreRefresh` (the database StoreRefreshToken call).  `false` means the
I/O fails before any write lands.  The source performs, in order: sign the
access token; store the claim set under the token's SHA-256 hash with expiry
now + SessionTimeout; sign the refresh token; store the refresh record (raw
string passed through the composite) with expiry now + RefreshTokenTTL.  An
error return leaves whatever was already written in place (no rollback). -/
def AuthService.GenerateTokensF (cfg : JWTConfig) (u : User) (st : SysState)
    (now : Nat) (fStoreClaims fStoreRefresh : Bool) :
    Except AuthErr AuthTokens × SysState :=
  let claims := AuthService.mkClaims cfg u now
  let accessTokenString := Str.accessTok claims
  let tokenHash := AuthService.GetTokenHash accessTokenString
  let tokenExpiry := now + cfg.sessionTimeout
  if fStoreClaims = false then (.error .storeFailure, st)
  else
    match TokenRepository.StoreTokenClaims st tokenHash claims tokenExpiry now with
    | .error _ => (.error .storeFailure, st)
    | .ok st1 =>
      if fStoreRefresh = false then (.error .storeFailure, st1)
      else
        match TokenRepository.StoreRefreshToken st1 u.id
            (Str.refreshTok ⟨u.id, now + cfg.refreshTokenTTL, now⟩)
            (now + cfg.refreshTokenTTL) now with
        | .error _ => (.error .storeFailure, st1)
        | .ok st2 =>
          (.ok { accessToken := accessTokenString,
                 refreshToken := Str.refreshTok ⟨u.id, now + cfg.refreshTokenTTL, now⟩,
                 expiresIn := cfg.accessTokenTTL }, st2)

/-- `AuthService.GenerateTokens` on the fault-free path (both stores up). -/
def AuthService.GenerateTokens (cfg : JWTConfig) (u : User) (st : SysState)
    (now : Nat) : Except AuthErr AuthTokens × SysState :=
  AuthService.GenerateTokensF cfg u st now true true

/-- `AuthService.RefreshToken`: look the raw refresh token up in the durable
store (an expired-or-missing record yields "invalid refresh token"); a record
past expiry is deleted and reported expired; re-issue a pair for the owning
user, then delete the consumed record (rotation; the delete is best-effort in
the source and succeeds in the fault-free store model). -/
def AuthService.RefreshToken (cfg : JWTConfig) (users : Nat → Option User)
    (refreshToken : Str) (st : SysState) (now : Nat) :
    Except AuthErr AuthTokens × SysState :=
  match TokenRepository.GetRefreshToken st refreshToken now with
  | none => (.error .invalidRefreshToken, st)
  | some storedToken =>
    if storedToken.expiresAt < now then
      (.error .refreshTokenExpired, TokenRepository.DeleteRefreshToken st refreshToken)
    else
      match users storedToken.userID with
      | none => (.error .userNotFound, st)
      | some foundUser =>
        match AuthService.GenerateTokens cfg foundUser st now with
        | (.error e, st1) => (.error e, st1)
        | (.ok tokens, st1) => (.ok tokens, TokenRepository.DeleteRefreshToken st1 refreshToken)

/-- `AuthService.Logout`: blacklist the raw token with expiry
now + AccessTokenTTL, then delete the claim set stored under the token's hash
(best-effort; a failure there is only logged).  Logout reports success. -/
def AuthService.Logout (cfg : JWTConfig) (userID : Nat) (token : Str)
    (st : SysState) (now : Nat) : Except AuthErr Unit × SysState :=
  let expiresAt := now + cfg.accessTokenTTL
  let st1 := TokenRepository.BlacklistToken st userID token expiresAt now
  let tokenHash := AuthService.GetTokenHash token
  let st2 := TokenRepository.DeleteTokenClaims st1 tokenHash now
  (.ok (), st2)

/-- `AuthService.StartSession`: validate the token (signature, expiry,
blacklist), fetch the stored claim set by the token's hash, check the account
matches, enforce the inactivity cutoff (delete the claim set and blacklist the
token on timeout), otherwise touch the activity fields and return the claims
with LastActivity/IP/user-agent refreshed. -/
def AuthService.StartSession (cfg : JWTConfig) (token : Str)
    (ipAddress userAgent : String) (st : SysState) (now : Nat) :
    Except AuthErr Claims × SysState :=
  match AuthService.ValidateToken st token now with
  | .error e => (.error e, st)
  | .ok claims =>
    let tokenHash := AuthService.GetTokenHash token
    match TokenRepository.GetTokenClaims st tokenHash now with
    | none => (.error .sessionNotFound, st)
    | some storedClaims =>
      if storedClaims.userID ≠ claims.userID then (.error .sessionMismatch, st)
      else if cfg.sessionTimeout < now - storedClaims.lastActivity then
        let st1 := TokenRepository.DeleteTokenClaims st tokenHash now
        let st2 := TokenRepository.BlacklistToken st1 claims.userID token
          (now + cfg.accessTokenTTL) now
        (.error .sessionTimedOut, st2)
      else
        let st1 := TokenRepository.UpdateTokenActivity st tokenHash ipAddress userAgent now
        let refreshed := { storedClaims with
          lastActivity := now
          ipAddress := ipAddress
          userAgent := userAgent }
        (.ok refreshed, st1)

/-- `AuthService.GetUserSessions`: delegates to GetUserTokenClaims. -/
def AuthService.GetUserSessions (st : SysState) (userID : Nat) (now : Nat) :
    List Claims × SysState :=
  TokenRepository.GetUserTokenClaims st userID now

/-- `AuthService.TerminateAllUserSessions`: delegates to
DeleteUserTokenClaims. -/
def AuthService.TerminateAllUserSessions (st : SysState) (userID : Nat)
    (excludeTokenHash : Option Str) (now : Nat) : Nat × SysState :=
  TokenRepository.DeleteUserTokenClaims st userID excludeTokenHash now

/-! ## Association-list helper lemmas (the Redis keyspace model) -/

/-- Dropping every entry of a key makes lookups of that key fail. -/
theorem find?_key_filter_self {α β : Type} [DecidableEq α]
    (l : List (α × β)) (k : α) :
    (l.filter (fun e => !(decide (e.1 = k)))).find? (fun e => decide (e.1 = k)) = none := by
  rw [List.find?_eq_none]
  intro x hx
  simpa using (List.mem_filter.mp hx).2

/-- Dropping every entry of one key does not disturb lookups of another key. -/
theorem find?_key_filter_ne {α β : Type} [DecidableEq α]
    (l : List (α × β)) (k k' : α) (h : k' ≠ k) :
    (l.filter (fun e => !(decide (e.1 = k)))).find? (fun e => decide (e.1 = k')) =
      l.find? (fun e => decide (e.1 = k')) := by
  induction l with
  | nil => rfl
  | cons e t ih =>
    rw [List.filter_cons]
    by_cases he' : e.1 = k'
    · have hek : ¬ e.1 = k := fun hek => h (he'.symm.trans hek)
      rw [if_pos (by simpa using hek), List.find?_cons_of_pos _ (by simpa using he'),
        List.find?_cons_of_pos _ (by simpa using he')]
    · by_cases hq : (!(decide (e.1 = k))) = true
      · rw [if_pos hq, List.find?_cons_of_neg _ (by simpa using he'),
          List.find?_cons_of_neg _ (by simpa using he')]
        exact ih
      · rw [if_neg hq, List.find?_cons_of_neg _ (by simpa using he')]
        exact ih

/-- DEL removes the key: a subsequent raw lookup finds nothing. -/
theorem kfind_kdel_self (l : List (Str × Claims × Nat)) (k : Str) :
    kfind (kdel l k) k = none := by
  unfold kfind kdel
  rw [find?_key_filter_self]
  rfl

/-- DEL leaves every other key's entry unchanged. -/
theorem kfind_kdel_ne (l : List (Str × Claims × Nat)) (k k' : Str) (h : k' ≠ k) :
    kfind (kdel l k) k' = kfind l k' := by
  unfold kfind kdel
  rw [find?_key_filter_ne l k k' h]

/-- SET stores the value under the key. -/
theorem kfind_kset_self (l : List (Str × Claims × Nat)) (k : Str) (v : Claims × Nat) :
    kfind (kset l k v) k = some v := by
  unfold kfind kset
  rw [List.find?_append, find?_key_filter_self]
  simp [List.find?]

/-- SET leaves every other key's entry unchanged. -/
theorem kfind_kset_ne (l : List (Str × Claims × Nat)) (k k' : Str) (v : Claims × Nat)
    (h : k' ≠ k) : kfind (kset l k v) k' = kfind l k' := by
  unfold kfind kset
  rw [List.find?_append, find?_key_filter_ne l k k' h]
  have hk : ¬ k = k' := fun hk => h hk.symm
  have h2 : List.find? (fun e => decide (e.1 = k')) [(k, v)] = none := by
    simp [List.find?, hk]
  rw [h2]
  simp

/-- DEL of a whole user set key: a subsequent lookup finds nothing. -/
theorem sfind_sdel_self (l : List (Nat × List Str × Nat)) (uid : Nat) :
    sfind (sdel l uid) uid = none := by
  unfold sfind sdel
  rw [find?_key_filter_self]
  rfl

/-- Deleting a claim record is permanent for that hash: once
`deleteTokenClaims` ran at `now1`, a read at any `now2 ≥ now1` fails
(the record was either physically removed, or already invisible then and
still invisible later). -/
theorem getTokenClaims_deleteTokenClaims_self (r : RedisState) (h : Str)
    (now1 now2 : Nat) (h12 : now1 ≤ now2) :
    TokenRedisRepository.getTokenClaims
      (TokenRedisRepository.deleteTokenClaims r h now1) h now2 = none := by
  unfold TokenRedisRepository.deleteTokenClaims
  cases hk : kfind r.tokenKeys h with
  | none =>
    unfold TokenRedisRepository.getTokenClaims
    rw [hk]
  | some ce =>
    obtain ⟨c, e⟩ := ce
    by_cases hl : now1 < e
    · simp only [hl, if_true]
      unfold TokenRedisRepository.getTokenClaims
      rw [show (RedisState.mk (kdel r.tokenKeys h)
          (sremMember r.userTokenSets c.userID h now1)).tokenKeys
            = kdel r.tokenKeys h from rfl]
      rw [kfind_kdel_self]
    · simp only [hl, if_false]
      unfold TokenRedisRepository.getTokenClaims
      rw [hk]
      have h2 : ¬ now2 < e := by omega
      simp [h2]

/-- After `blacklistToken`, a row with the given hash is present (either one
already was, or the insert just added it). -/
theorem blacklistToken_has_row (db : DBState) (uid : Nat) (tok : Str)
    (e now : Nat) :
    (TokenDBRepository.blacklistToken db uid tok e now).blacklistedTokens.any
      (fun r => decide (r.tokenHash = tok)) = true := by
  unfold TokenDBRepository.blacklistToken
  by_cases hb : db.blacklistedTokens.any (fun r => decide (r.tokenHash = tok)) = true
  · simp [hb]
  · simp [hb, List.any_append]

/-- The ON CONFLICT DO NOTHING insert is idempotent: a second insert with the
same token hash leaves the table exactly as after the first. -/
theorem blacklistToken_idem (db : DBState) (uid uid2 : Nat) (tok : Str)
    (e1 e2 t1 t2 : Nat) :
    TokenDBRepository.blacklistToken
      (TokenDBRepository.blacklistToken db uid tok e1 t1) uid2 tok e2 t2 =
    TokenDBRepository.blacklistToken db uid tok e1 t1 := by
  have h := blacklistToken_has_row db uid tok e1 t1
  unfold TokenDBRepository.blacklistToken
  unfold TokenDBRepository.blacklistToken at h
  by_cases hb : db.blacklistedTokens.any (fun r => decide (r.tokenHash = tok)) = true
  · simp [hb]
  · simp only [hb, if_false] at h ⊢
    simp [h]

/-- A deleted refresh token can no longer be looked up: the DELETE removes
every row carrying that hash. -/
theorem getRefreshToken_deleteRefreshToken_self (db : DBState) (tok : Str) (now : Nat) :
    TokenDBRepository.getRefreshToken (TokenDBRepository.deleteRefreshToken db tok) tok now = none := by
  unfold TokenDBRepository.getRefreshToken TokenDBRepository.deleteRefreshToken
  rw [List.find?_eq_none]
  intro x hx
  have hne := (List.mem_filter.mp hx).2
  simp at hne ⊢
  intro h
  exact absurd h hne

/-- A token none of whose hash's rows are in the blacklist table is not
reported blacklisted. -/
theorem isTokenBlacklisted_eq_false (db : DBState) (tok : Str) (now : Nat)
    (h : ∀ r ∈ db.blacklistedTokens, r.tokenHash ≠ tok) :
    TokenDBRepository.isTokenBlacklisted db tok now = false := by
  unfold TokenDBRepository.isTokenBlacklisted
  rw [List.any_eq_false]
  intro x hx
  simp
  intro hxx
  exact absurd hxx (h x hx)

/-- A successful StoreTokenClaims call leaves the durable store untouched and
makes the claims readable under the hash. -/
theorem storeTokenClaims_ok (st st1 : SysState) (hashT : Str) (claims : Claims)
    (expiry now : Nat)
    (h : TokenRepository.StoreTokenClaims st hashT claims expiry now = .ok st1) :
    st1.db = st.db ∧
    TokenRedisRepository.getTokenClaims st1.redis hashT now = some claims := by
  unfold TokenRepository.StoreTokenClaims TokenRedisRepository.storeTokenClaims at h
  split at h
  · simp [Except.map] at h
  · rename_i hexp
    simp only [Except.map] at h
    cases h
    refine ⟨rfl, ?_⟩
    unfold TokenRedisRepository.getTokenClaims
    have hk : kfind (SysState.mk st.db (RedisState.mk
        (kset st.redis.tokenKeys hashT (claims, now + (expiry - now)))
        (sset st.redis.userTokenSets claims.userID
          (match sfind st.redis.userTokenSets claims.userID with
           | some (ms, se) => if now < se then (if hashT ∈ ms then ms else ms ++ [hashT]) else [hashT]
           | none => [hashT], now + (expiry - now) + 3600)))).redis.tokenKeys hashT =
        some (claims, now + (expiry - now)) := kfind_kset_self _ _ _
    rw [hk]
    have hlt : now < now + (expiry - now) := by omega
    simp [hlt]

/-- Deleting claims twice (time moving forward) is the same as deleting them
once. -/
theorem deleteTokenClaims_idem (r : RedisState) (h : Str) (now1 now2 : Nat)
    (h12 : now1 ≤ now2) :
    TokenRedisRepository.deleteTokenClaims
      (TokenRedisRepository.deleteTokenClaims r h now1) h now2 =
      TokenRedisRepository.deleteTokenClaims r h now1 := by
  cases hk : kfind r.tokenKeys h with
  | none =>
    have h1 : TokenRedisRepository.deleteTokenClaims r h now1 = r := by
      unfold TokenRedisRepository.deleteTokenClaims
      rw [hk]
    rw [h1]
    unfold TokenRedisRepository.deleteTokenClaims
    rw [hk]
  | some ce =>
    obtain ⟨c, e⟩ := ce
    by_cases hl : now1 < e
    · have h1 : TokenRedisRepository.deleteTokenClaims r h now1 =
          RedisState.mk (kdel r.tokenKeys h)
            (sremMember r.userTokenSets c.userID h now1) := by
        unfold TokenRedisRepository.deleteTokenClaims
        rw [hk]
        simp [hl]
      rw [h1]
      unfold TokenRedisRepository.deleteTokenClaims
      rw [show (RedisState.mk (kdel r.tokenKeys h)
          (sremMember r.userTokenSets c.userID h now1)).tokenKeys =
          kdel r.tokenKeys h from rfl]
      rw [kfind_kdel_self]
    · have h1 : TokenRedisRepository.deleteTokenClaims r h now1 = r := by
        unfold TokenRedisRepository.deleteTokenClaims
        rw [hk]
        simp [hl]
      rw [h1]
      unfold TokenRedisRepository.deleteTokenClaims
      rw [hk]
      have h2 : ¬ now2 < e := by omega
      simp [h2]

/-- The member loop of deleteUserTokenClaims never touches the kept hash's
`token:` entry. -/
theorem dutc_foldl_keep (uid : Nat) (keep : Str) (now : Nat) (ms : List Str) :
    ∀ acc : Nat × RedisState,
      kfind ((ms.foldl (TokenRedisRepository.dutcStep uid (some keep) now) acc).2.tokenKeys) keep =
        kfind acc.2.tokenKeys keep := by
  induction ms with
  | nil => intro acc; rfl
  | cons h t ih =>
    intro acc
    rw [List.foldl_cons, ih]
    unfold TokenRedisRepository.dutcStep
    by_cases hk : (some keep : Option Str) = some h
    · simp [hk]
    · have hne : keep ≠ h := fun hh => hk (congrArg some hh)
      simp only [hk, if_false]
      exact kfind_kdel_ne _ _ _ hne

/-- With a hash to keep, deleteUserTokenClaims deletes the whole per-account
index set key. -/
theorem dutc_keep_index (r : RedisState) (uid : Nat) (keep : Str) (now : Nat) :
    sfind (TokenRedisRepository.deleteUserTokenClaims r uid (some keep) now).2.userTokenSets uid = none := by
  unfold TokenRedisRepository.deleteUserTokenClaims
  simp only [Option.isSome, if_true]
  exact sfind_sdel_self _ _

/-- With a hash to keep, deleteUserTokenClaims leaves the kept hash's
`token:` entry exactly as it was. -/
theorem dutc_keep_tokenKeys (r : RedisState) (uid : Nat) (keep : Str) (now : Nat) :
    kfind (TokenRedisRepository.deleteUserTokenClaims r uid (some keep) now).2.tokenKeys keep =
      kfind r.tokenKeys keep := by
  unfold TokenRedisRepository.deleteUserTokenClaims
  simp only [Option.isSome, if_true]
  exact dutc_foldl_keep uid keep now _ (0, r)

/-- StartSession succeeds on a verifiable, unrevoked token whose live claims
match the token's account and are within the inactivity window. -/
theorem startSession_succeeds (cfg : JWTConfig) (tok : Str) (c sc : Claims)
    (e : Nat) (ip ua : String) (st : SysState) (now : Nat)
    (hp : parseAccessClaims tok = some c)
    (hexp : now < c.registered.expiresAt)
    (hbl : TokenDBRepository.isTokenBlacklisted st.db tok now = false)
    (hcl : kfind st.redis.tokenKeys (AuthService.GetTokenHash tok) = some (sc, e))
    (hlive : now < e)
    (hmatch : sc.userID = c.userID)
    (hnoto : ¬ cfg.sessionTimeout < now - sc.lastActivity) :
    (AuthService.StartSession cfg tok ip ua st now).1.isOk = true := by
  have hgc : TokenRepository.GetTokenClaims st (AuthService.GetTokenHash tok) now = some sc := by
    unfold TokenRepository.GetTokenClaims TokenRedisRepository.getTokenClaims
    rw [hcl]
    simp [hlive]
  have hexp2 : ¬ c.registered.expiresAt ≤ now := by omega
  simp [AuthService.StartSession, AuthService.ValidateToken, hp, hexp2,
    TokenRepository.IsTokenBlacklisted, hbl, hgc, hmatch, hnoto,
    Except.isOk, Except.toBool]

/-! ## Claim theorems -/

/-- C1: the specification states that every token-accepting operation of the
Composite Token Repository passes the SHA-256 fingerprint of the raw token to
the Durable Token Store, so that raw token material is never persisted.  The
code does not: the composite delegates the raw token string unchanged, so the
durable store's `token_hash` column receives the raw token itself, which
differs from its fingerprint.  This theorem exhibits the divergence at a
concrete input: after StoreRefreshToken and BlacklistToken with the raw token
`Str.lit "t"`, the stored rows carry the raw token, not its digest. -/
theorem raw_token_reaches_durable_store :
    (TokenRepository.StoreRefreshToken ⟨⟨[], []⟩, ⟨[], []⟩⟩ 1 (Str.lit "t") 100 0 =
      .ok ⟨⟨[⟨1, Str.lit "t", 100, 0⟩], []⟩, ⟨[], []⟩⟩) ∧
    (Str.lit "t" ≠ AuthService.GetTokenHash (Str.lit "t")) ∧
    ((TokenRepository.BlacklistToken ⟨⟨[], []⟩, ⟨[], []⟩⟩ 1 (Str.lit "t") 100 0).db.blacklistedTokens =
      [⟨1, Str.lit "t", 100, 0, "logout"⟩]) := by
  refine ⟨rfl, ?_, rfl⟩
  decide

/-- C2: after a successful Logout with a token, a subsequent StartSession
with that same token never returns claims, and whenever the token still
verifies (parses and is unexpired) the failure is precisely the revoked or
session-not-found error. -/
theorem logout_then_startSession_never_succeeds (cfg : JWTConfig) (uid : Nat)
    (tok : Str) (ip ua : String) (st : SysState) (now1 now2 : Nat)
    (h12 : now1 ≤ now2) :
    ((AuthService.StartSession cfg tok ip ua
        (AuthService.Logout cfg uid tok st now1).2 now2).1.isOk = false) ∧
    (∀ c, parseAccessClaims tok = some c → now2 < c.registered.expiresAt →
      ((AuthService.StartSession cfg tok ip ua
          (AuthService.Logout cfg uid tok st now1).2 now2).1 = Except.error AuthErr.blacklisted ∨
       (AuthService.StartSession cfg tok ip ua
          (AuthService.Logout cfg uid tok st now1).2 now2).1 = Except.error AuthErr.sessionNotFound)) := by
  have hst2 : (AuthService.Logout cfg uid tok st now1).2 =
      ⟨TokenDBRepository.blacklistToken st.db uid tok (now1 + cfg.accessTokenTTL) now1,
       TokenRedisRepository.deleteTokenClaims st.redis (AuthService.GetTokenHash tok) now1⟩ := rfl
  rw [hst2]
  cases hp : parseAccessClaims tok with
  | none =>
    constructor
    · simp [AuthService.StartSession, AuthService.ValidateToken, hp, Except.isOk, Except.toBool]
    · intro c hc
      exact absurd hc (by simp)
  | some c =>
    by_cases hexp : c.registered.expiresAt ≤ now2
    · constructor
      · simp [AuthService.StartSession, AuthService.ValidateToken, hp, hexp, Except.isOk, Except.toBool]
      · intro c' hc hlt
        injection hc with hcc
        subst hcc
        omega
    · by_cases hbl : TokenDBRepository.isTokenBlacklisted
          (TokenDBRepository.blacklistToken st.db uid tok (now1 + cfg.accessTokenTTL) now1)
          tok now2 = true
      · constructor
        · simp [AuthService.StartSession, AuthService.ValidateToken,
            TokenRepository.IsTokenBlacklisted, hp, hexp, hbl, Except.isOk, Except.toBool]
        · intro c' hc hlt
          left
          simp [AuthService.StartSession, AuthService.ValidateToken,
            TokenRepository.IsTokenBlacklisted, hp, hexp, hbl]
      · have hnone : TokenRepository.GetTokenClaims
            (SysState.mk
              (TokenDBRepository.blacklistToken st.db uid tok (now1 + cfg.accessTokenTTL) now1)
              (TokenRedisRepository.deleteTokenClaims st.redis (AuthService.GetTokenHash tok) now1))
            (AuthService.GetTokenHash tok) now2 = none := by
          unfold TokenRepository.GetTokenClaims
          exact getTokenClaims_deleteTokenClaims_self st.redis (AuthService.GetTokenHash tok) now1 now2 h12
        constructor
        · simp [AuthService.StartSession, AuthService.ValidateToken,
            TokenRepository.IsTokenBlacklisted, hp, hexp, hbl, hnone, Except.isOk, Except.toBool]
        · intro c' hc hlt
          right
          simp [AuthService.StartSession, AuthService.ValidateToken,
            TokenRepository.IsTokenBlacklisted, hp, hexp, hbl, hnone]

/-- C2 witness: a concrete logout of a live access token at time 20 followed
by StartSession at time 30. -/
theorem logout_then_startSession_never_succeeds_witness :
    ((AuthService.StartSession ⟨900, 604800, 3600⟩
        (Str.accessTok ⟨1, "a", "r", 2, "", "", 0, 0, ⟨1, 900, 0⟩⟩) "i" "u"
        (AuthService.Logout ⟨900, 604800, 3600⟩ 1
          (Str.accessTok ⟨1, "a", "r", 2, "", "", 0, 0, ⟨1, 900, 0⟩⟩)
          ⟨⟨[], []⟩, ⟨[(Str.sha256hex (Str.accessTok ⟨1, "a", "r", 2, "", "", 0, 0, ⟨1, 900, 0⟩⟩),
              ⟨1, "a", "r", 2, "", "", 0, 0, ⟨1, 900, 0⟩⟩, 3600)],
            [(1, [Str.sha256hex (Str.accessTok ⟨1, "a", "r", 2, "", "", 0, 0, ⟨1, 900, 0⟩⟩)], 7200)]⟩⟩
          20).2 30).1.isOk = false) ∧
    (∀ c, parseAccessClaims (Str.accessTok ⟨1, "a", "r", 2, "", "", 0, 0, ⟨1, 900, 0⟩⟩) = some c →
      30 < c.registered.expiresAt →
      ((AuthService.StartSession ⟨900, 604800, 3600⟩
          (Str.accessTok ⟨1, "a", "r", 2, "", "", 0, 0, ⟨1, 900, 0⟩⟩) "i" "u"
          (AuthService.Logout ⟨900, 604800, 3600⟩ 1
            (Str.accessTok ⟨1, "a", "r", 2, "", "", 0, 0, ⟨1, 900, 0⟩⟩)
            ⟨⟨[], []⟩, ⟨[(Str.sha256hex (Str.accessTok ⟨1, "a", "r", 2, "", "", 0, 0, ⟨1, 900, 0⟩⟩),
                ⟨1, "a", "r", 2, "", "", 0, 0, ⟨1, 900, 0⟩⟩, 3600)],
              [(1, [Str.sha256hex (Str.accessTok ⟨1, "a", "r", 2, "", "", 0, 0, ⟨1, 900, 0⟩⟩)], 7200)]⟩⟩
            20).2 30).1 = Except.error AuthErr.blacklisted ∨
       (AuthService.StartSession ⟨900, 604800, 3600⟩
          (Str.accessTok ⟨1, "a", "r", 2, "", "", 0, 0, ⟨1, 900, 0⟩⟩) "i" "u"
          (AuthService.Logout ⟨900, 604800, 3600⟩ 1
            (Str.accessTok ⟨1, "a", "r", 2, "", "", 0, 0, ⟨1, 900, 0⟩⟩)
            ⟨⟨[], []⟩, ⟨[(Str.sha256hex (Str.accessTok ⟨1, "a", "r", 2, "", "", 0, 0, ⟨1, 900, 0⟩⟩),
                ⟨1, "a", "r", 2, "", "", 0, 0, ⟨1, 900, 0⟩⟩, 3600)],
              [(1, [Str.sha256hex (Str.accessTok ⟨1, "a", "r", 2, "", "", 0, 0, ⟨1, 900, 0⟩⟩)], 7200)]⟩⟩
            20).2 30).1 = Except.error AuthErr.sessionNotFound)) :=
  logout_then_startSession_never_succeeds ⟨900, 604800, 3600⟩ 1
    (Str.accessTok ⟨1, "a", "r", 2, "", "", 0, 0, ⟨1, 900, 0⟩⟩) "i" "u"
    ⟨⟨[], []⟩, ⟨[(Str.sha256hex (Str.accessTok ⟨1, "a", "r", 2, "", "", 0, 0, ⟨1, 900, 0⟩⟩),
        ⟨1, "a", "r", 2, "", "", 0, 0, ⟨1, 900, 0⟩⟩, 3600)],
      [(1, [Str.sha256hex (Str.accessTok ⟨1, "a", "r", 2, "", "", 0, 0, ⟨1, 900, 0⟩⟩)], 7200)]⟩⟩
    20 30 (by decide)

/-- C3: a successful RefreshToken call removes every refresh row carrying the
consumed raw token from the durable store, and any subsequent RefreshToken
call with that same raw token fails with the invalid-refresh-token error. -/
theorem refreshToken_single_use (cfg : JWTConfig) (users : Nat → Option User)
    (tok : Str) (st st1 : SysState) (now1 now2 : Nat) (toks : AuthTokens)
    (h1 : AuthService.RefreshToken cfg users tok st now1 = (Except.ok toks, st1)) :
    (∀ r ∈ st1.db.refreshTokens, r.tokenHash ≠ tok) ∧
    (AuthService.RefreshToken cfg users tok st1 now2).1 =
      Except.error AuthErr.invalidRefreshToken := by
  unfold AuthService.RefreshToken at h1
  split at h1
  · exact absurd (congrArg Prod.fst h1) (by simp)
  · rename_i row hrow
    split at h1
    · exact absurd (congrArg Prod.fst h1) (by simp)
    · split at h1
      · exact absurd (congrArg Prod.fst h1) (by simp)
      · rename_i u hu
        split at h1
        · rename_i e stg hg
          exact absurd (congrArg Prod.fst h1) (by simp)
        · rename_i tokens stg hg
          have hst1 : st1 = TokenRepository.DeleteRefreshToken stg tok :=
            (congrArg Prod.snd h1).symm
          subst hst1
          constructor
          · intro r hr
            have hmem := (List.mem_filter.mp hr).2
            simpa using hmem
          · unfold AuthService.RefreshToken
            rw [show TokenRepository.GetRefreshToken
                (TokenRepository.DeleteRefreshToken stg tok) tok now2 = none from
              getRefreshToken_deleteRefreshToken_self stg.db tok now2]

/-- C3 witness: a concrete rotation at time 10 whose consumed token cannot be
used again at time 20. -/
theorem refreshToken_single_use_witness :
    (∀ r ∈ (DBState.mk [⟨1, Str.refreshTok ⟨1, 604810, 10⟩, 604810, 10⟩] []).refreshTokens,
      r.tokenHash ≠ Str.refreshTok ⟨1, 604800, 0⟩) ∧
    (AuthService.RefreshToken ⟨900, 604800, 3600⟩
        (fun i => if i = 1 then some ⟨1, "a", "r", 2⟩ else none)
        (Str.refreshTok ⟨1, 604800, 0⟩)
        ⟨⟨[⟨1, Str.refreshTok ⟨1, 604810, 10⟩, 604810, 10⟩], []⟩,
         ⟨[(Str.sha256hex (Str.accessTok ⟨1, "a", "r", 2, "", "", 10, 10, ⟨1, 910, 10⟩⟩),
            ⟨1, "a", "r", 2, "", "", 10, 10, ⟨1, 910, 10⟩⟩, 3610)],
          [(1, [Str.sha256hex (Str.accessTok ⟨1, "a", "r", 2, "", "", 10, 10, ⟨1, 910, 10⟩⟩)], 7210)]⟩⟩
        20).1 = Except.error AuthErr.invalidRefreshToken :=
  refreshToken_single_use ⟨900, 604800, 3600⟩
    (fun i => if i = 1 then some ⟨1, "a", "r", 2⟩ else none)
    (Str.refreshTok ⟨1, 604800, 0⟩)
    ⟨⟨[⟨1, Str.refreshTok ⟨1, 604800, 0⟩, 604800, 0⟩], []⟩, ⟨[], []⟩⟩
    ⟨⟨[⟨1, Str.refreshTok ⟨1, 604810, 10⟩, 604810, 10⟩], []⟩,
     ⟨[(Str.sha256hex (Str.accessTok ⟨1, "a", "r", 2, "", "", 10, 10, ⟨1, 910, 10⟩⟩),
        ⟨1, "a", "r", 2, "", "", 10, 10, ⟨1, 910, 10⟩⟩, 3610)],
      [(1, [Str.sha256hex (Str.accessTok ⟨1, "a", "r", 2, "", "", 10, 10, ⟨1, 910, 10⟩⟩)], 7210)]⟩⟩
    10 20
    ⟨Str.accessTok ⟨1, "a", "r", 2, "", "", 10, 10, ⟨1, 910, 10⟩⟩,
     Str.refreshTok ⟨1, 604810, 10⟩, 900⟩
    rfl

/-- C4: the specification's deactivation scenario states that after
DeleteUserTokens (DeleteAllForAccount) a StartSession with the account's
outstanding token fails.  The code's DeleteUserTokens removes only the
durable refresh and blacklist rows and never touches the Ephemeral Session
Store, so a live session survives: at a concrete state built by a login at
time 0, deleting user 1's tokens and then starting a session at time 10 with
the outstanding access token succeeds and returns claims. -/
theorem deleteUserTokens_leaves_live_session_usable :
    ((AuthService.StartSession ⟨900, 604800, 3600⟩
        (Str.accessTok (AuthService.mkClaims ⟨900, 604800, 3600⟩ ⟨1, "a", "r", 2⟩ 0))
        "i" "u"
        (TokenRepository.DeleteUserTokens
          (AuthService.GenerateTokens ⟨900, 604800, 3600⟩ ⟨1, "a", "r", 2⟩
            ⟨⟨[], []⟩, ⟨[], []⟩⟩ 0).2 1) 10).1.isOk = true) ∧
    ((TokenRepository.DeleteUserTokens
        (AuthService.GenerateTokens ⟨900, 604800, 3600⟩ ⟨1, "a", "r", 2⟩
          ⟨⟨[], []⟩, ⟨[], []⟩⟩ 0).2 1).db = ⟨[], []⟩) := by
  constructor
  · rfl
  · rfl

/-- C5: a StartSession call on a token whose stored Claim Set has been
inactive longer than SessionTimeout deletes the Claim Set, inserts a
blacklist row with expiry now + access-token TTL, fails with the
session-timed-out error, and every subsequent StartSession with that token
fails as well. -/
theorem startSession_inactivity_timeout_revokes (cfg : JWTConfig) (tok : Str)
    (c sc : Claims) (e : Nat) (ip ua : String) (st : SysState) (now : Nat)
    (hp : parseAccessClaims tok = some c)
    (hexp : now < c.registered.expiresAt)
    (hnobl : ∀ r ∈ st.db.blacklistedTokens, r.tokenHash ≠ tok)
    (hcl : kfind st.redis.tokenKeys (AuthService.GetTokenHash tok) = some (sc, e))
    (hlive : now < e)
    (hmatch : sc.userID = c.userID)
    (hto : cfg.sessionTimeout < now - sc.lastActivity) :
    ((AuthService.StartSession cfg tok ip ua st now).1 = Except.error AuthErr.sessionTimedOut) ∧
    (kfind (AuthService.StartSession cfg tok ip ua st now).2.redis.tokenKeys
      (AuthService.GetTokenHash tok) = none) ∧
    (BlacklistRow.mk c.userID tok (now + cfg.accessTokenTTL) now "logout" ∈
      (AuthService.StartSession cfg tok ip ua st now).2.db.blacklistedTokens) ∧
    (∀ now2 ip2 ua2,
      (AuthService.StartSession cfg tok ip2 ua2
        (AuthService.StartSession cfg tok ip ua st now).2 now2).1.isOk = false) := by
  have hbl0 := isTokenBlacklisted_eq_false st.db tok now hnobl
  have hgc : TokenRepository.GetTokenClaims st (AuthService.GetTokenHash tok) now = some sc := by
    unfold TokenRepository.GetTokenClaims TokenRedisRepository.getTokenClaims
    rw [hcl]
    simp [hlive]
  have hdel : TokenRedisRepository.deleteTokenClaims st.redis (AuthService.GetTokenHash tok) now =
      RedisState.mk (kdel st.redis.tokenKeys (AuthService.GetTokenHash tok))
        (sremMember st.redis.userTokenSets sc.userID (AuthService.GetTokenHash tok) now) := by
    unfold TokenRedisRepository.deleteTokenClaims
    rw [hcl]
    simp [hlive]
  have hexp2 : ¬ c.registered.expiresAt ≤ now := by omega
  have hrun : AuthService.StartSession cfg tok ip ua st now =
      (Except.error AuthErr.sessionTimedOut,
       SysState.mk
         (TokenDBRepository.blacklistToken st.db c.userID tok (now + cfg.accessTokenTTL) now)
         (TokenRedisRepository.deleteTokenClaims st.redis (AuthService.GetTokenHash tok) now)) := by
    unfold AuthService.StartSession AuthService.ValidateToken
    rw [hp]
    simp only [hexp2, if_false, TokenRepository.IsTokenBlacklisted, hbl0, ite_false,
      Bool.false_eq_true, hgc, hmatch]
    simp [hto, hmatch, TokenRepository.DeleteTokenClaims, TokenRepository.BlacklistToken]
  rw [hrun]
  refine ⟨rfl, ?_, ?_, ?_⟩
  · rw [show (SysState.mk
        (TokenDBRepository.blacklistToken st.db c.userID tok (now + cfg.accessTokenTTL) now)
        (TokenRedisRepository.deleteTokenClaims st.redis (AuthService.GetTokenHash tok) now)).redis =
          TokenRedisRepository.deleteTokenClaims st.redis (AuthService.GetTokenHash tok) now from rfl,
      hdel]
    exact kfind_kdel_self _ _
  · have hb : TokenDBRepository.blacklistToken st.db c.userID tok (now + cfg.accessTokenTTL) now =
        DBState.mk st.db.refreshTokens
          (st.db.blacklistedTokens ++ [⟨c.userID, tok, now + cfg.accessTokenTTL, now, "logout"⟩]) := by
      unfold TokenDBRepository.blacklistToken
      have hany : st.db.blacklistedTokens.any (fun r => decide (r.tokenHash = tok)) = false := by
        rw [List.any_eq_false]
        intro x hx
        simpa using hnobl x hx
      simp [hany]
    rw [show (SysState.mk
        (TokenDBRepository.blacklistToken st.db c.userID tok (now + cfg.accessTokenTTL) now)
        (TokenRedisRepository.deleteTokenClaims st.redis (AuthService.GetTokenHash tok) now)).db =
          TokenDBRepository.blacklistToken st.db c.userID tok (now + cfg.accessTokenTTL) now from rfl,
      hb]
    simp
  · intro now2 ip2 ua2
    have hgone : TokenRepository.GetTokenClaims
        (SysState.mk
          (TokenDBRepository.blacklistToken st.db c.userID tok (now + cfg.accessTokenTTL) now)
          (TokenRedisRepository.deleteTokenClaims st.redis (AuthService.GetTokenHash tok) now))
        (AuthService.GetTokenHash tok) now2 = none := by
      unfold TokenRepository.GetTokenClaims TokenRedisRepository.getTokenClaims
      rw [show (SysState.mk
          (TokenDBRepository.blacklistToken st.db c.userID tok (now + cfg.accessTokenTTL) now)
          (TokenRedisRepository.deleteTokenClaims st.redis (AuthService.GetTokenHash tok) now)).redis =
            TokenRedisRepository.deleteTokenClaims st.redis (AuthService.GetTokenHash tok) now from rfl,
        hdel]
      rw [show (RedisState.mk (kdel st.redis.tokenKeys (AuthService.GetTokenHash tok))
          (sremMember st.redis.userTokenSets sc.userID (AuthService.GetTokenHash tok) now)).tokenKeys =
            kdel st.redis.tokenKeys (AuthService.GetTokenHash tok) from rfl]
      rw [kfind_kdel_self]
    by_cases hexp3 : c.registered.expiresAt ≤ now2
    · simp [AuthService.StartSession, AuthService.ValidateToken, hp, hexp3,
        Except.isOk, Except.toBool]
    · by_cases hbl2 : TokenDBRepository.isTokenBlacklisted
          (TokenDBRepository.blacklistToken st.db c.userID tok (now + cfg.accessTokenTTL) now)
          tok now2 = true
      · simp [AuthService.StartSession, AuthService.ValidateToken, hp, hexp3,
          TokenRepository.IsTokenBlacklisted, hbl2, Except.isOk, Except.toBool]
      · simp [AuthService.StartSession, AuthService.ValidateToken, hp, hexp3,
          TokenRepository.IsTokenBlacklisted, hbl2, hgone, Except.isOk, Except.toBool]

/-- C5 witness: a session whose stored last activity (0) is 200 ticks old
with SessionTimeout 100, on a token valid until 900 with the claim record
live until 10000. -/
theorem startSession_inactivity_timeout_revokes_witness :
    ((AuthService.StartSession ⟨900, 604800, 100⟩
        (Str.accessTok ⟨1, "e", "r", 2, "", "", 0, 0, ⟨1, 900, 0⟩⟩) "i" "u"
        ⟨⟨[], []⟩, ⟨[(Str.sha256hex (Str.accessTok ⟨1, "e", "r", 2, "", "", 0, 0, ⟨1, 900, 0⟩⟩),
            ⟨1, "e", "r", 2, "", "", 0, 0, ⟨1, 900, 0⟩⟩, 10000)], []⟩⟩ 200).1 =
      Except.error AuthErr.sessionTimedOut) ∧
    (kfind (AuthService.StartSession ⟨900, 604800, 100⟩
        (Str.accessTok ⟨1, "e", "r", 2, "", "", 0, 0, ⟨1, 900, 0⟩⟩) "i" "u"
        ⟨⟨[], []⟩, ⟨[(Str.sha256hex (Str.accessTok ⟨1, "e", "r", 2, "", "", 0, 0, ⟨1, 900, 0⟩⟩),
            ⟨1, "e", "r", 2, "", "", 0, 0, ⟨1, 900, 0⟩⟩, 10000)], []⟩⟩ 200).2.redis.tokenKeys
      (AuthService.GetTokenHash (Str.accessTok ⟨1, "e", "r", 2, "", "", 0, 0, ⟨1, 900, 0⟩⟩)) = none) ∧
    (BlacklistRow.mk 1 (Str.accessTok ⟨1, "e", "r", 2, "", "", 0, 0, ⟨1, 900, 0⟩⟩) (200 + 900) 200 "logout" ∈
      (AuthService.StartSession ⟨900, 604800, 100⟩
        (Str.accessTok ⟨1, "e", "r", 2, "", "", 0, 0, ⟨1, 900, 0⟩⟩) "i" "u"
        ⟨⟨[], []⟩, ⟨[(Str.sha256hex (Str.accessTok ⟨1, "e", "r", 2, "", "", 0, 0, ⟨1, 900, 0⟩⟩),
            ⟨1, "e", "r", 2, "", "", 0, 0, ⟨1, 900, 0⟩⟩, 10000)], []⟩⟩ 200).2.db.blacklistedTokens) ∧
    (∀ now2 ip2 ua2,
      (AuthService.StartSession ⟨900, 604800, 100⟩
        (Str.accessTok ⟨1, "e", "r", 2, "", "", 0, 0, ⟨1, 900, 0⟩⟩) ip2 ua2
        (AuthService.StartSession ⟨900, 604800, 100⟩
          (Str.accessTok ⟨1, "e", "r", 2, "", "", 0, 0, ⟨1, 900, 0⟩⟩) "i" "u"
          ⟨⟨[], []⟩, ⟨[(Str.sha256hex (Str.accessTok ⟨1, "e", "r", 2, "", "", 0, 0, ⟨1, 900, 0⟩⟩),
              ⟨1, "e", "r", 2, "", "", 0, 0, ⟨1, 900, 0⟩⟩, 10000)], []⟩⟩ 200).2 now2).1.isOk = false) :=
  startSession_inactivity_timeout_revokes ⟨900, 604800, 100⟩
    (Str.accessTok ⟨1, "e", "r", 2, "", "", 0, 0, ⟨1, 900, 0⟩⟩)
    ⟨1, "e", "r", 2, "", "", 0, 0, ⟨1, 900, 0⟩⟩
    ⟨1, "e", "r", 2, "", "", 0, 0, ⟨1, 900, 0⟩⟩ 10000 "i" "u"
    ⟨⟨[], []⟩, ⟨[(Str.sha256hex (Str.accessTok ⟨1, "e", "r", 2, "", "", 0, 0, ⟨1, 900, 0⟩⟩),
        ⟨1, "e", "r", 2, "", "", 0, 0, ⟨1, 900, 0⟩⟩, 10000)], []⟩⟩ 200
    rfl (by decide) (by decide) rfl (by decide) rfl (by decide)

/-- C6 counterexample: the specification says the only reachable one-sided
state of login's two persistence steps is "refresh record persisted, Claim
Set not", and that a login never leaves a live persisted Claim Set without
its refresh record.  The code stores the Claim Set first and the refresh
record second, so when the refresh store fails the failed login leaves a
LIVE Claim Set (readable at time 10) with NO refresh record — exactly the
state the claim says is unreachable. -/
theorem generateTokens_partial_failure_counterexample :
    ((AuthService.GenerateTokensF ⟨900, 604800, 3600⟩ ⟨1, "a", "r", 2⟩
        ⟨⟨[], []⟩, ⟨[], []⟩⟩ 0 true false).1.isOk = false) ∧
    ((AuthService.GenerateTokensF ⟨900, 604800, 3600⟩ ⟨1, "a", "r", 2⟩
        ⟨⟨[], []⟩, ⟨[], []⟩⟩ 0 true false).2.db.refreshTokens = []) ∧
    (TokenRedisRepository.getTokenClaims
        (AuthService.GenerateTokensF ⟨900, 604800, 3600⟩ ⟨1, "a", "r", 2⟩
          ⟨⟨[], []⟩, ⟨[], []⟩⟩ 0 true false).2.redis
        (AuthService.GetTokenHash (Str.accessTok
          (AuthService.mkClaims ⟨900, 604800, 3600⟩ ⟨1, "a", "r", 2⟩ 0))) 10 =
      some (AuthService.mkClaims ⟨900, 604800, 3600⟩ ⟨1, "a", "r", 2⟩ 0)) := by
  refine ⟨rfl, rfl, rfl⟩

/-- C6 (amended): in every partial failure of login's two persistence steps
the only reachable one-sided state is the one where the Claim Set is
persisted and the refresh record is not: a failed GenerateTokens call never
modifies the durable store, and whatever it left in the ephemeral store is
either nothing or the freshly stored Claim Set; the error return means no
tokens reach the caller. -/
theorem generateTokens_partial_failure_claims_only (cfg : JWTConfig) (u : User)
    (st st' : SysState) (now : Nat) (fC fR : Bool)
    (res : Except AuthErr AuthTokens)
    (h1 : AuthService.GenerateTokensF cfg u st now fC fR = (res, st'))
    (h2 : res.isOk = false) :
    (st'.db = st.db) ∧
    (st'.redis = st.redis ∨
      TokenRedisRepository.getTokenClaims st'.redis
        (AuthService.GetTokenHash (Str.accessTok (AuthService.mkClaims cfg u now))) now =
        some (AuthService.mkClaims cfg u now)) := by
  unfold AuthService.GenerateTokensF at h1
  cases fC with
  | false =>
    simp only [if_pos] at h1
    cases h1
    exact ⟨rfl, Or.inl rfl⟩
  | true =>
    rw [if_neg (by simp)] at h1
    cases hsc : TokenRepository.StoreTokenClaims st
        (AuthService.GetTokenHash (Str.accessTok (AuthService.mkClaims cfg u now)))
        (AuthService.mkClaims cfg u now) (now + cfg.sessionTimeout) now with
    | error s =>
      rw [hsc] at h1
      simp only [] at h1
      cases h1
      exact ⟨rfl, Or.inl rfl⟩
    | ok st1 =>
      rw [hsc] at h1
      simp only [] at h1
      have hst1 := storeTokenClaims_ok st st1 _ _ _ now hsc
      cases fR with
      | false =>
        simp only [if_pos] at h1
        cases h1
        exact ⟨hst1.1, Or.inr hst1.2⟩
      | true =>
        rw [if_neg (by simp)] at h1
        cases hsr : TokenRepository.StoreRefreshToken st1 u.id
            (Str.refreshTok ⟨u.id, now + cfg.refreshTokenTTL, now⟩)
            (now + cfg.refreshTokenTTL) now with
        | error s =>
          rw [hsr] at h1
          simp only [] at h1
          cases h1
          exact ⟨hst1.1, Or.inr hst1.2⟩
        | ok st2 =>
          rw [hsr] at h1
          simp only [] at h1
          cases h1
          simp [Except.isOk, Except.toBool] at h2

/-- C6 witness: the amended direction instantiated at the counterexample's
input (claims store up, refresh store down). -/
theorem generateTokens_partial_failure_claims_only_witness :
    ((AuthService.GenerateTokensF ⟨900, 604800, 3600⟩ ⟨1, "a", "r", 2⟩
        ⟨⟨[], []⟩, ⟨[], []⟩⟩ 0 true false).2.db = (⟨⟨[], []⟩, ⟨[], []⟩⟩ : SysState).db) ∧
    ((AuthService.GenerateTokensF ⟨900, 604800, 3600⟩ ⟨1, "a", "r", 2⟩
        ⟨⟨[], []⟩, ⟨[], []⟩⟩ 0 true false).2.redis = (⟨⟨[], []⟩, ⟨[], []⟩⟩ : SysState).redis ∨
      TokenRedisRepository.getTokenClaims
        (AuthService.GenerateTokensF ⟨900, 604800, 3600⟩ ⟨1, "a", "r", 2⟩
          ⟨⟨[], []⟩, ⟨[], []⟩⟩ 0 true false).2.redis
        (AuthService.GetTokenHash (Str.accessTok
          (AuthService.mkClaims ⟨900, 604800, 3600⟩ ⟨1, "a", "r", 2⟩ 0))) 0 =
        some (AuthService.mkClaims ⟨900, 604800, 3600⟩ ⟨1, "a", "r", 2⟩ 0)) :=
  generateTokens_partial_failure_claims_only ⟨900, 604800, 3600⟩
    ⟨1, "a", "r", 2⟩ ⟨⟨[], []⟩, ⟨[], []⟩⟩
    (AuthService.GenerateTokensF ⟨900, 604800, 3600⟩ ⟨1, "a", "r", 2⟩
      ⟨⟨[], []⟩, ⟨[], []⟩⟩ 0 true false).2 0 true false
    (AuthService.GenerateTokensF ⟨900, 604800, 3600⟩ ⟨1, "a", "r", 2⟩
      ⟨⟨[], []⟩, ⟨[], []⟩⟩ 0 true false).1 rfl rfl

/-- C7: UpdateTokenActivity rewrites the stored claims through touchClaims
(only last-activity, IP and user-agent change) and writes them back with the
record's existing absolute expiry — the TTL is preserved, never extended —
while every other key and the whole per-account index are untouched. -/
theorem updateTokenActivity_preserves_ttl_and_frame (r : RedisState)
    (hashT : Str) (ip ua : String) (now : Nat) (c : Claims) (e : Nat)
    (hcl : kfind r.tokenKeys hashT = some (c, e)) (hlive : now < e) :
    (kfind (TokenRedisRepository.updateTokenActivity r hashT ip ua now).tokenKeys hashT =
      some (TokenRedisRepository.touchClaims c ip ua now, e)) ∧
    (∀ k, k ≠ hashT →
      kfind (TokenRedisRepository.updateTokenActivity r hashT ip ua now).tokenKeys k =
        kfind r.tokenKeys k) ∧
    ((TokenRedisRepository.updateTokenActivity r hashT ip ua now).userTokenSets =
      r.userTokenSets) := by
  have hupd : TokenRedisRepository.updateTokenActivity r hashT ip ua now =
      RedisState.mk
        (kset r.tokenKeys hashT
          (TokenRedisRepository.touchClaims c ip ua now, now + (e - now)))
        r.userTokenSets := by
    unfold TokenRedisRepository.updateTokenActivity
    rw [hcl]
    simp [hlive]
  rw [hupd]
  have he : now + (e - now) = e := by omega
  refine ⟨?_, ?_, rfl⟩
  · rw [show (RedisState.mk
        (kset r.tokenKeys hashT
          (TokenRedisRepository.touchClaims c ip ua now, now + (e - now)))
        r.userTokenSets).tokenKeys =
        kset r.tokenKeys hashT
          (TokenRedisRepository.touchClaims c ip ua now, now + (e - now)) from rfl]
    rw [kfind_kset_self, he]
  · intro k hk
    exact kfind_kset_ne _ _ _ _ hk

/-- C7 witness: touching a live record at time 50 whose expiry is 100. -/
theorem updateTokenActivity_preserves_ttl_and_frame_witness :
    (kfind (TokenRedisRepository.updateTokenActivity
        ⟨[(Str.lit "h", ⟨1, "e", "r", 2, "o", "v", 0, 0, ⟨1, 900, 0⟩⟩, 100)], []⟩
        (Str.lit "h") "i" "u" 50).tokenKeys (Str.lit "h") =
      some (TokenRedisRepository.touchClaims
        ⟨1, "e", "r", 2, "o", "v", 0, 0, ⟨1, 900, 0⟩⟩ "i" "u" 50, 100)) ∧
    (∀ k, k ≠ Str.lit "h" →
      kfind (TokenRedisRepository.updateTokenActivity
          ⟨[(Str.lit "h", ⟨1, "e", "r", 2, "o", "v", 0, 0, ⟨1, 900, 0⟩⟩, 100)], []⟩
          (Str.lit "h") "i" "u" 50).tokenKeys k =
        kfind [(Str.lit "h", ⟨1, "e", "r", 2, "o", "v", 0, 0, ⟨1, 900, 0⟩⟩, 100)] k) ∧
    ((TokenRedisRepository.updateTokenActivity
        ⟨[(Str.lit "h", ⟨1, "e", "r", 2, "o", "v", 0, 0, ⟨1, 900, 0⟩⟩, 100)], []⟩
        (Str.lit "h") "i" "u" 50).userTokenSets = []) :=
  updateTokenActivity_preserves_ttl_and_frame
    ⟨[(Str.lit "h", ⟨1, "e", "r", 2, "o", "v", 0, 0, ⟨1, 900, 0⟩⟩, 100)], []⟩
    (Str.lit "h") "i" "u" 50
    ⟨1, "e", "r", 2, "o", "v", 0, 0, ⟨1, 900, 0⟩⟩ 100 rfl (by decide)

/-- C8: blacklisting is idempotent — a second insert with the same token hash
is a no-op, not an error — and consequently a second Logout with the same
token (time moving forward) returns no error and leaves the state exactly as
after the first Logout. -/
theorem blacklist_and_logout_idempotent (cfg : JWTConfig) (db : DBState)
    (uid uid2 : Nat) (tok : Str) (e1 e2 t1 t2 : Nat) (st : SysState)
    (now1 now2 : Nat) (h12 : now1 ≤ now2) :
    (TokenDBRepository.blacklistToken
        (TokenDBRepository.blacklistToken db uid tok e1 t1) uid2 tok e2 t2 =
      TokenDBRepository.blacklistToken db uid tok e1 t1) ∧
    ((AuthService.Logout cfg uid tok st now1).1 = Except.ok ()) ∧
    (AuthService.Logout cfg uid tok (AuthService.Logout cfg uid tok st now1).2 now2 =
      (Except.ok (), (AuthService.Logout cfg uid tok st now1).2)) := by
  refine ⟨blacklistToken_idem db uid uid2 tok e1 e2 t1 t2, rfl, ?_⟩
  simp only [AuthService.Logout, TokenRepository.BlacklistToken,
    TokenRepository.DeleteTokenClaims, Prod.mk.injEq, SysState.mk.injEq]
  refine ⟨trivial, ?_, ?_⟩
  · exact blacklistToken_idem st.db uid uid tok (now1 + cfg.accessTokenTTL)
      (now2 + cfg.accessTokenTTL) now1 now2
  · exact deleteTokenClaims_idem st.redis (AuthService.GetTokenHash tok) now1 now2 h12

/-- C8 witness: double blacklist insert and double logout at times 10 and 20. -/
theorem blacklist_and_logout_idempotent_witness :
    (TokenDBRepository.blacklistToken
        (TokenDBRepository.blacklistToken ⟨[], []⟩ 1 (Str.lit "t") 910 10) 1 (Str.lit "t") 920 20 =
      TokenDBRepository.blacklistToken ⟨[], []⟩ 1 (Str.lit "t") 910 10) ∧
    ((AuthService.Logout ⟨900, 604800, 3600⟩ 1 (Str.lit "t")
        ⟨⟨[], []⟩, ⟨[], []⟩⟩ 10).1 = Except.ok ()) ∧
    (AuthService.Logout ⟨900, 604800, 3600⟩ 1 (Str.lit "t")
        (AuthService.Logout ⟨900, 604800, 3600⟩ 1 (Str.lit "t")
          ⟨⟨[], []⟩, ⟨[], []⟩⟩ 10).2 20 =
      (Except.ok (), (AuthService.Logout ⟨900, 604800, 3600⟩ 1 (Str.lit "t")
        ⟨⟨[], []⟩, ⟨[], []⟩⟩ 10).2)) :=
  blacklist_and_logout_idempotent ⟨900, 604800, 3600⟩ ⟨[], []⟩ 1 1 (Str.lit "t")
    910 920 10 20 ⟨⟨[], []⟩, ⟨[], []⟩⟩ 10 20 (by decide)

/-- C9: GetRefreshToken never returns a record whose expiry is not strictly
in the future (expired rows are invisible even before the sweeper removes
them), and when the lookup finds nothing — covering both missing and
past-expiry records — RefreshToken fails with the invalid-refresh-token
error. -/
theorem getRefreshToken_never_returns_expired (cfg : JWTConfig)
    (users : Nat → Option User) (st : SysState) (tok : Str) (now : Nat) :
    (∀ row, TokenRepository.GetRefreshToken st tok now = some row → now < row.expiresAt) ∧
    (TokenRepository.GetRefreshToken st tok now = none →
      (AuthService.RefreshToken cfg users tok st now).1 =
        Except.error AuthErr.invalidRefreshToken) := by
  constructor
  · intro row hrow
    unfold TokenRepository.GetRefreshToken TokenDBRepository.getRefreshToken at hrow
    have hfind := List.find?_some hrow
    simp at hfind
    exact hfind.2
  · intro hnone
    unfold AuthService.RefreshToken
    rw [hnone]

/-- C9 witness: a live row (expiry 100, read at 5) is indeed unexpired, and a
lookup against a store holding only an expired row (expiry 3, read at 5)
makes RefreshToken fail with the invalid-refresh-token error. -/
theorem getRefreshToken_never_returns_expired_witness :
    ((5 : Nat) < 100) ∧
    ((AuthService.RefreshToken ⟨900, 604800, 3600⟩ (fun _ => none) (Str.lit "r")
        ⟨⟨[⟨1, Str.lit "r", 3, 0⟩], []⟩, ⟨[], []⟩⟩ 5).1 =
      Except.error AuthErr.invalidRefreshToken) := by
  constructor
  · exact (getRefreshToken_never_returns_expired ⟨900, 604800, 3600⟩ (fun _ => none)
      ⟨⟨[⟨1, Str.lit "r", 100, 0⟩], []⟩, ⟨[], []⟩⟩ (Str.lit "r") 5).1
      ⟨1, Str.lit "r", 100, 0⟩ rfl
  · exact (getRefreshToken_never_returns_expired ⟨900, 604800, 3600⟩ (fun _ => none)
      ⟨⟨[⟨1, Str.lit "r", 3, 0⟩], []⟩, ⟨[], []⟩⟩ (Str.lit "r") 5).2 rfl

/-- C10: DeleteUserTokenClaims with a non-nil hash to keep deletes the entire
per-account session index set — including the kept fingerprint's entry —
while leaving the kept Claim Set record itself untouched; consequently
GetUserSessions returns the empty list at any later time, yet StartSession
with the kept token (still verifiable, unrevoked, live and within the
inactivity window) still succeeds. -/
theorem terminateAll_keep_clears_index_keeps_claims (st : SysState) (uid : Nat)
    (keep : Str) (now : Nat) (cfg : JWTConfig) (tok : Str) (ip ua : String)
    (c sc : Claims) (e now2 : Nat)
    (hhash : AuthService.GetTokenHash tok = keep)
    (hp : parseAccessClaims tok = some c)
    (hexp : now2 < c.registered.expiresAt)
    (hbl : TokenDBRepository.isTokenBlacklisted st.db tok now2 = false)
    (hcl : kfind st.redis.tokenKeys keep = some (sc, e))
    (hlive : now2 < e)
    (hmatch : sc.userID = c.userID)
    (hnoto : ¬ cfg.sessionTimeout < now2 - sc.lastActivity) :
    (sfind (AuthService.TerminateAllUserSessions st uid (some keep) now).2.redis.userTokenSets uid = none) ∧
    (kfind (AuthService.TerminateAllUserSessions st uid (some keep) now).2.redis.tokenKeys keep =
      kfind st.redis.tokenKeys keep) ∧
    (∀ now3, (AuthService.GetUserSessions
        (AuthService.TerminateAllUserSessions st uid (some keep) now).2 uid now3).1 = []) ∧
    ((AuthService.StartSession cfg tok ip ua
        (AuthService.TerminateAllUserSessions st uid (some keep) now).2 now2).1.isOk = true) := by
  have hterm : (AuthService.TerminateAllUserSessions st uid (some keep) now).2 =
      SysState.mk st.db
        (TokenRedisRepository.deleteUserTokenClaims st.redis uid (some keep) now).2 := rfl
  refine ⟨?_, ?_, ?_, ?_⟩
  · rw [hterm]
    exact dutc_keep_index st.redis uid keep now
  · rw [hterm]
    exact dutc_keep_tokenKeys st.redis uid keep now
  · intro now3
    rw [hterm]
    unfold AuthService.GetUserSessions TokenRepository.GetUserTokenClaims
      TokenRedisRepository.getUserTokenClaims
    rw [show (SysState.mk st.db
        (TokenRedisRepository.deleteUserTokenClaims st.redis uid (some keep) now).2).redis =
        (TokenRedisRepository.deleteUserTokenClaims st.redis uid (some keep) now).2 from rfl]
    rw [dutc_keep_index st.redis uid keep now]
  · rw [hterm]
    refine startSession_succeeds cfg tok c sc e ip ua
      (SysState.mk st.db
        (TokenRedisRepository.deleteUserTokenClaims st.redis uid (some keep) now).2)
      now2 hp hexp hbl ?_ hlive hmatch hnoto
    rw [show (SysState.mk st.db
        (TokenRedisRepository.deleteUserTokenClaims st.redis uid (some keep) now).2).redis =
        (TokenRedisRepository.deleteUserTokenClaims st.redis uid (some keep) now).2 from rfl]
    rw [hhash, dutc_keep_tokenKeys st.redis uid keep now]
    exact hcl

/-- C10 witness: an account with one live session kept through
TerminateAllUserSessions at time 10; the session list is empty afterwards but
StartSession with the kept token at time 50 succeeds. -/
theorem terminateAll_keep_clears_index_keeps_claims_witness :
    (sfind (AuthService.TerminateAllUserSessions
        ⟨⟨[], []⟩, ⟨[(Str.sha256hex (Str.accessTok ⟨1, "e", "r", 2, "", "", 0, 0, ⟨1, 900, 0⟩⟩),
            ⟨1, "e", "r", 2, "", "", 0, 0, ⟨1, 900, 0⟩⟩, 10000)],
          [(1, [Str.sha256hex (Str.accessTok ⟨1, "e", "r", 2, "", "", 0, 0, ⟨1, 900, 0⟩⟩)], 20000)]⟩⟩
        1 (some (Str.sha256hex (Str.accessTok ⟨1, "e", "r", 2, "", "", 0, 0, ⟨1, 900, 0⟩⟩))) 10).2.redis.userTokenSets 1 = none) ∧
    (kfind (AuthService.TerminateAllUserSessions
        ⟨⟨[], []⟩, ⟨[(Str.sha256hex (Str.accessTok ⟨1, "e", "r", 2, "", "", 0, 0, ⟨1, 900, 0⟩⟩),
            ⟨1, "e", "r", 2, "", "", 0, 0, ⟨1, 900, 0⟩⟩, 10000)],
          [(1, [Str.sha256hex (Str.accessTok ⟨1, "e", "r", 2, "", "", 0, 0, ⟨1, 900, 0⟩⟩)], 20000)]⟩⟩
        1 (some (Str.sha256hex (Str.accessTok ⟨1, "e", "r", 2, "", "", 0, 0, ⟨1, 900, 0⟩⟩))) 10).2.redis.tokenKeys
      (Str.sha256hex (Str.accessTok ⟨1, "e", "r", 2, "", "", 0, 0, ⟨1, 900, 0⟩⟩)) =
      kfind [(Str.sha256hex (Str.accessTok ⟨1, "e", "r", 2, "", "", 0, 0, ⟨1, 900, 0⟩⟩),
          ⟨1, "e", "r", 2, "", "", 0, 0, ⟨1, 900, 0⟩⟩, 10000)]
        (Str.sha256hex (Str.accessTok ⟨1, "e", "r", 2, "", "", 0, 0, ⟨1, 900, 0⟩⟩))) ∧
    (∀ now3, (AuthService.GetUserSessions (AuthService.TerminateAllUserSessions
        ⟨⟨[], []⟩, ⟨[(Str.sha256hex (Str.accessTok ⟨1, "e", "r", 2, "", "", 0, 0, ⟨1, 900, 0⟩⟩),
            ⟨1, "e", "r", 2, "", "", 0, 0, ⟨1, 900, 0⟩⟩, 10000)],
          [(1, [Str.sha256hex (Str.accessTok ⟨1, "e", "r", 2, "", "", 0, 0, ⟨1, 900, 0⟩⟩)], 20000)]⟩⟩
        1 (some (Str.sha256hex (Str.accessTok ⟨1, "e", "r", 2, "", "", 0, 0, ⟨1, 900, 0⟩⟩))) 10).2 1 now3).1 = []) ∧
    ((AuthService.StartSession ⟨900, 604800, 100⟩
        (Str.accessTok ⟨1, "e", "r", 2, "", "", 0, 0, ⟨1, 900, 0⟩⟩) "i" "u"
        (AuthService.TerminateAllUserSessions
          ⟨⟨[], []⟩, ⟨[(Str.sha256hex (Str.accessTok ⟨1, "e", "r", 2, "", "", 0, 0, ⟨1, 900, 0⟩⟩),
              ⟨1, "e", "r", 2, "", "", 0, 0, ⟨1, 900, 0⟩⟩, 10000)],
            [(1, [Str.sha256hex (Str.accessTok ⟨1, "e", "r", 2, "", "", 0, 0, ⟨1, 900, 0⟩⟩)], 20000)]⟩⟩
          1 (some (Str.sha256hex (Str.accessTok ⟨1, "e", "r", 2, "", "", 0, 0, ⟨1, 900, 0⟩⟩))) 10).2 50).1.isOk = true) :=
  terminateAll_keep_clears_index_keeps_claims
    ⟨⟨[], []⟩, ⟨[(Str.sha256hex (Str.accessTok ⟨1, "e", "r", 2, "", "", 0, 0, ⟨1, 900, 0⟩⟩),
        ⟨1, "e", "r", 2, "", "", 0, 0, ⟨1, 900, 0⟩⟩, 10000)],
      [(1, [Str.sha256hex (Str.accessTok ⟨1, "e", "r", 2, "", "", 0, 0, ⟨1, 900, 0⟩⟩)], 20000)]⟩⟩
    1 (Str.sha256hex (Str.accessTok ⟨1, "e", "r", 2, "", "", 0, 0, ⟨1, 900, 0⟩⟩)) 10
    ⟨900, 604800, 100⟩ (Str.accessTok ⟨1, "e", "r", 2, "", "", 0, 0, ⟨1, 900, 0⟩⟩) "i" "u"
    ⟨1, "e", "r", 2, "", "", 0, 0, ⟨1, 900, 0⟩⟩ ⟨1, "e", "r", 2, "", "", 0, 0, ⟨1, 900, 0⟩⟩
    10000 50 rfl rfl (by decide) rfl rfl (by decide) rfl (by decide)
